import Mathlib

/-!
Verification of the OptiOR availability engine.

Shallow embedding of the scheduling / availability logic of the OptiOR
web application (`web-app/components/types.ts`, `ScheduleModal`).

Modelling conventions:
* Absolute timestamps are integers in minutes.  `date-fns`' `addMinutes`
  becomes integer addition; `new Date(selectedDate); setHours(hour,0,0,0)`
  becomes `dayStart + 60 * hour`, where `dayStart` is the midnight of the
  modal's `selectedDate`.
* Optional JavaScript values (`end : string | null`, `doctor_name?`,
  a possibly missing `actual_duration`) become `Option`.
* The JavaScript truthiness test `actual_duration || 60` maps `none` and
  `some 0` to `60` and every other `some d` (negative values included) to
  `d`; likewise `!prediction` is true for `none` and `some 0`, and
  `!service` for the empty string.
* `editCase && c.id === editCase.id` becomes `editId = some c.id` for an
  `editId : Option Nat` (`none` in create mode).
-/

/-- The `extendedProps` record of a `SurgeryCase`
(interface `SurgeryCase` in `types.ts`). -/
structure ExtendedProps where
  or_suite : String
  service : String
  booked_time : Int
  actual_duration : Option Int
  patient_name : String
  is_prediction : Bool
  doctor_name : Option String
  deriving DecidableEq, Repr

/-- A surgery case as consumed by the availability engine.  `start` and the
optional `endTime` (field `end` in the source, a Lean keyword) are absolute
timestamps in minutes. -/
structure SurgeryCase where
  id : Nat
  title : String
  start : Int
  endTime : Option Int
  extendedProps : ExtendedProps
  deriving DecidableEq, Repr

/-- The fallback `actual_duration || 60` used when a case has no
stored end time.  `0` is falsy in JavaScript, so `some 0` falls back to `60`;
any other stored number — negative ones included — is used as is. -/
def fallbackMinutes : Option Int → Int
  | none => 60
  | some d => if d = 0 then 60 else d

/-- Effective end of a case: the stored `end` when present, otherwise
`start + (actual_duration || 60)` (`isSlotAvailable`, `getAvailableDoctors`). -/
def effectiveEnd (c : SurgeryCase) : Int :=
  match c.endTime with
  | some e => e
  | none => c.start + fallbackMinutes c.extendedProps.actual_duration

/-- Per-case room-conflict test: the body of the `some` callback in
`isSlotAvailable`.  Returns `true` when case `c` blocks the candidate
interval `[slotStart, slotEnd)` in room `or`. -/
def roomConflict (or : String) (slotStart slotEnd : Int) (editId : Option Nat)
    (c : SurgeryCase) : Bool :=
  if editId = some c.id then false
  else if c.extendedProps.or_suite ≠ or then false
  else decide (slotStart < effectiveEnd c ∧ slotEnd > c.start)

/-- Room availability on an explicit candidate interval `[slotStart, slotEnd)`:
the `!existingAndAllCases.some (...)` core of `isSlotAvailable`. -/
def isFreeAt (or : String) (slotStart slotEnd : Int) (editId : Option Nat)
    (cases : List SurgeryCase) : Bool :=
  !(cases.any (roomConflict or slotStart slotEnd editId))

/-- The function `isSlotAvailable(or, hour, duration)` from `ScheduleModal`:
`slotStart = selectedDate at hour:00`, `slotEnd = slotStart + duration`. -/
def isSlotAvailable (or : String) (hour duration dayStart : Int)
    (editId : Option Nat) (cases : List SurgeryCase) : Bool :=
  isFreeAt or (dayStart + 60 * hour) (dayStart + 60 * hour + duration) editId cases

/-- Per-case surgeon-conflict test: the body of the `some` callback inside
`getAvailableDoctors`.  Identical comparisons to `roomConflict` with the room
filter replaced by `c.extendedProps.doctor_name !== doc`. -/
def doctorConflict (doc : String) (slotStart slotEnd : Int) (editId : Option Nat)
    (c : SurgeryCase) : Bool :=
  if editId = some c.id then false
  else if c.extendedProps.doctor_name ≠ some doc then false
  else decide (slotStart < effectiveEnd c ∧ slotEnd > c.start)

/-- The `isBusy` check of `getAvailableDoctors`: does doctor `doc` have any
case overlapping `[slotStart, slotEnd)`? -/
def doctorBusy (doc : String) (slotStart slotEnd : Int) (editId : Option Nat)
    (cases : List SurgeryCase) : Bool :=
  cases.any (doctorConflict doc slotStart slotEnd editId)

/-- The function `getAvailableDoctors()` from `ScheduleModal`.  `service` is
`form.watch('service')` (empty string when unset), `allDoctors` the fetched
specialty-to-roster map, `selectedSlot` the chosen `(or, hour)` pair and
`prediction` the predicted duration (`null`/`0` are both falsy). -/
def getAvailableDoctors (service : String)
    (allDoctors : List (String × List String))
    (selectedSlot : Option (String × Int)) (prediction : Option Int)
    (dayStart : Int) (editId : Option Nat)
    (cases : List SurgeryCase) : List String :=
  if service = "" then []
  else
    match allDoctors.lookup service with
    | none => []
    | some doctors =>
      match selectedSlot, prediction with
      | some slot, some p =>
        if p = 0 then doctors
        else
          doctors.filter (fun doc =>
            !(doctorBusy doc (dayStart + 60 * slot.2)
              (dayStart + 60 * slot.2 + p) editId cases))
      | _, _ => doctors

/-- The constant `OR_SUITES` from `ScheduleModal`. -/
def OR_SUITES : List String := ["OR-1", "OR-2", "OR-3", "OR-4"]

/-- The constant `TIME_SLOTS = Array.from(\x7blength: 11\x7d, (_, i) => 8 + i)`:
the whole hours 8 through 18. -/
def TIME_SLOTS : List Int := (List.range 11).map (fun i => 8 + (i : Int))

/-- The slot grid the modal renders: for each room of `OR_SUITES` (outer map)
and each hour of `TIME_SLOTS` (inner map), one candidate with
`isAvail = isSlotAvailable or hour duration`. -/
def enumerateSlots (duration dayStart : Int) (editId : Option Nat)
    (cases : List SurgeryCase) : List (String × Int × Bool) :=
  (OR_SUITES.map (fun or =>
    TIME_SLOTS.map (fun h =>
      (or, h, isSlotAvailable or h duration dayStart editId cases)))).flatten

/-- The payload `onSubmit` builds and sends to the API. -/
structure SubmitPayload where
  service : String
  booked_time : Int
  patient_name : String
  or_suite : String
  duration : Int
  wheels_in : Int
  wheels_out : Int
  actual_duration : Int
  doctor_name : String
  deriving DecidableEq, Repr

/-- Outcome of `onSubmit`: either the local guard fires (error toast, nothing
sent) or a payload is sent to the external API (`updateCase` when editing,
`createCase` otherwise — `isUpdate` records which). -/
inductive SubmitAction where
  | rejectedLocally
  | sent (isUpdate : Bool) (payload : SubmitPayload)
  deriving DecidableEq, Repr

/-- The handler `onSubmit` from `ScheduleModal`.  The only local validation is
`if (!selectedSlot || !prediction)`; otherwise the payload is built from the
selected slot and prediction and sent.  The case list is not consulted. -/
def onSubmit (selectedSlot : Option (String × Int)) (prediction : Option Int)
    (dayStart : Int) (service : String) (booked_time : Int)
    (patient_name : String) (doctor_name : String)
    (editId : Option Nat) : SubmitAction :=
  match selectedSlot, prediction with
  | some slot, some p =>
    if p = 0 then SubmitAction.rejectedLocally
    else
      SubmitAction.sent editId.isSome
        ⟨service, booked_time, patient_name, slot.1, p,
          dayStart + 60 * slot.2, dayStart + 60 * slot.2 + p, p, doctor_name⟩
  | _, _ => SubmitAction.rejectedLocally

/-- The effective end as the specification words it (§4.1): stored end when
present, otherwise `start + max(durationMinutes, 1)`, and `start + 60` when
`durationMinutes` is absent or non-positive.  Stated only to compare with the
source's `effectiveEnd`. -/
def specEffectiveEnd (c : SurgeryCase) : Int :=
  match c.endTime with
  | some e => e
  | none =>
    match c.extendedProps.actual_duration with
    | some d => if d ≤ 0 then c.start + 60 else c.start + max d 1
    | none => c.start + 60

/-- Concrete case for the spec's room scenario: 09:00–10:00 in OR-1. -/
def case0900 : SurgeryCase :=
  ⟨1, "c1", 540, some 600, ⟨"OR-1", "General", 60, some 60, "p1", false, none⟩⟩

/-- Concrete case for the surgeon scenario: Dr. A, 10:00–11:00 in OR-2. -/
def caseDrA : SurgeryCase :=
  ⟨2, "c2", 600, some 660,
    ⟨"OR-2", "Cardiology", 60, some 60, "p2", false, some "Dr. A"⟩⟩

/-- Concrete case with no stored end and a negative recorded duration. -/
def caseNegDur : SurgeryCase :=
  ⟨3, "c3", 600, none, ⟨"OR-1", "General", 60, some (-30), "p3", false, none⟩⟩

/-- Concrete case 08:00–10:00 in OR-1, for the zero-duration analysis. -/
def case0800x2 : SurgeryCase :=
  ⟨4, "c4", 480, some 600, ⟨"OR-1", "General", 120, some 120, "p4", false, none⟩⟩

theorem roomConflict_eq_true (or : String) (s e : Int) (eid : Option Nat)
    (c : SurgeryCase) :
    roomConflict or s e eid c = true ↔
      eid ≠ some c.id ∧ c.extendedProps.or_suite = or ∧
        s < effectiveEnd c ∧ e > c.start := by
  unfold roomConflict
  split
  · simp_all
  · split
    · simp_all
    · simp_all

theorem isFreeAt_eq_false_iff (or : String) (s e : Int) (eid : Option Nat)
    (L : List SurgeryCase) :
    isFreeAt or s e eid L = false ↔
      ∃ c ∈ L, eid ≠ some c.id ∧ c.extendedProps.or_suite = or ∧
        s < effectiveEnd c ∧ e > c.start := by
  simp [isFreeAt, List.any_eq_true, roomConflict_eq_true]

theorem doctorConflict_eq_true (doc : String) (s e : Int) (eid : Option Nat)
    (c : SurgeryCase) :
    doctorConflict doc s e eid c = true ↔
      eid ≠ some c.id ∧ c.extendedProps.doctor_name = some doc ∧
        s < effectiveEnd c ∧ e > c.start := by
  unfold doctorConflict
  split
  · simp_all
  · split
    · simp_all
    · simp_all

theorem doctorBusy_eq_true_iff (doc : String) (s e : Int) (eid : Option Nat)
    (L : List SurgeryCase) :
    doctorBusy doc s e eid L = true ↔
      ∃ c ∈ L, eid ≠ some c.id ∧ c.extendedProps.doctor_name = some doc ∧
        s < effectiveEnd c ∧ e > c.start := by
  simp [doctorBusy, List.any_eq_true, doctorConflict_eq_true]

/-- C1: the room availability check returns `false` exactly when some case
`c` of the list has `c.id ≠ excludeId`, is booked in the candidate room, and
overlaps the candidate interval under the half-open rule
`slotStart < effectiveEnd c ∧ slotStart + d > c.start`; otherwise it returns
`true`, in particular on the empty case list. -/
theorem room_check_characterization (or : String) (hour d dayStart : Int)
    (eid : Option Nat) (L : List SurgeryCase) :
    (isSlotAvailable or hour d dayStart eid L = false ↔
      ∃ c ∈ L, eid ≠ some c.id ∧ c.extendedProps.or_suite = or ∧
        dayStart + 60 * hour < effectiveEnd c ∧
        dayStart + 60 * hour + d > c.start)
    ∧ isSlotAvailable or hour d dayStart eid [] = true := by
  exact ⟨isFreeAt_eq_false_iff or (dayStart + 60 * hour)
    (dayStart + 60 * hour + d) eid L, rfl⟩

/-- C2: touching intervals are never conflicts — a case whose effective start
equals the candidate end, or whose effective end equals the candidate start,
does not block the slot; concretely, against a 09:00–10:00 case in OR-1 the
08:00 and 10:00 hour slots for 60 minutes are available while the 09:30
candidate interval for 30 minutes (stated on the interval-level core
`isFreeAt`, since the grid itself only offers whole hours) is not. -/
theorem touching_intervals_free :
    (∀ (s d : Int) (eid : Option Nat) (c : SurgeryCase),
        s + d = c.start ∨ s = effectiveEnd c →
        isFreeAt c.extendedProps.or_suite s (s + d) eid [c] = true)
    ∧ isSlotAvailable "OR-1" 8 60 0 none [case0900] = true
    ∧ isFreeAt "OR-1" 570 600 none [case0900] = false
    ∧ isSlotAvailable "OR-1" 10 60 0 none [case0900] = true := by
  refine ⟨?_, by decide, by decide, by decide⟩
  intro s d eid c h
  cases hb : isFreeAt c.extendedProps.or_suite s (s + d) eid [c] with
  | true => rfl
  | false =>
    obtain ⟨c', hc', _, _, hlt, hgt⟩ := (isFreeAt_eq_false_iff _ _ _ _ _).mp hb
    rw [List.mem_singleton] at hc'
    subst hc'
    rcases h with h | h <;> omega

/-- C2 witness: the touching-boundary statement instantiated on the concrete
09:00–10:00 case, candidate 08:00–09:00 (ends exactly at the case's start). -/
theorem touching_intervals_free_witness :
    isFreeAt case0900.extendedProps.or_suite 480 (480 + 60) none [case0900]
      = true :=
  touching_intervals_free.1 480 60 none case0900 (Or.inl (by decide))

/-- C3 counterexample: for a case with no stored end time and a recorded
duration of −30 minutes starting at 10:00 (minute 600), the code computes the
effective end `start + (−30) = 570`, not the `start + 60 = 660` the claim
requires for a non-positive duration. -/
theorem effectiveEnd_spec_counterexample :
    effectiveEnd caseNegDur = 570 ∧ specEffectiveEnd caseNegDur = 660 ∧
      effectiveEnd caseNegDur ≠ specEffectiveEnd caseNegDur := by decide

/-- C3 amended: the effective end is the stored end time when present;
otherwise it is `start + durationMinutes` whenever a nonzero duration is
recorded (also when that duration is negative), and `start + 60` exactly when
the recorded duration is absent or zero. -/
theorem effectiveEnd_characterization (c : SurgeryCase) :
    (∀ e, c.endTime = some e → effectiveEnd c = e)
    ∧ (c.endTime = none →
        (∀ d, c.extendedProps.actual_duration = some d → d ≠ 0 →
          effectiveEnd c = c.start + d)
        ∧ ((c.extendedProps.actual_duration = none ∨
            c.extendedProps.actual_duration = some 0) →
          effectiveEnd c = c.start + 60)) := by
  unfold effectiveEnd fallbackMinutes
  rcases c with ⟨_, _, start, endTime, props⟩
  cases endTime with
  | some e => simp
  | none =>
    rcases props with ⟨_, _, _, ad, _, _, _⟩
    cases ad with
    | none => simp
    | some d =>
      refine ⟨by simp, fun _ => ⟨?_, ?_⟩⟩
      · intro d' hd' hne
        simp only [Option.some.injEq] at hd'
        subst hd'
        simp [hne]
      · rintro (h | h) <;> simp_all

/-- C3 amended witness: the characterization evaluated on the concrete case
with no stored end and recorded duration −30. -/
theorem effectiveEnd_characterization_witness :
    effectiveEnd caseNegDur = 600 + (-30) :=
  ((effectiveEnd_characterization caseNegDur).2 rfl).1 (-30) rfl (by decide)

/-- C4 counterexample: a zero-minute candidate at 09:00 in OR-1 against an
08:00–10:00 case in OR-1 is reported unavailable, so a non-positive duration
is not treated as an empty interval that never overlaps anything. -/
theorem zero_duration_counterexample :
    isSlotAvailable "OR-1" 9 0 0 none [case0800x2] = false := by decide

/-- C4 amended: for a zero or negative candidate duration `d` the check keeps
applying the same strict comparisons — it returns `false` exactly when some
non-excluded case in the room satisfies `effectiveStart c < slotStart + d`
and `slotStart < effectiveEnd c`, and any such conflict places the candidate
start strictly inside the case's effective interval. -/
theorem zero_duration_characterization (or : String) (hour d dayStart : Int)
    (eid : Option Nat) (L : List SurgeryCase) (hd : d ≤ 0) :
    (isSlotAvailable or hour d dayStart eid L = false ↔
      ∃ c ∈ L, eid ≠ some c.id ∧ c.extendedProps.or_suite = or ∧
        c.start < dayStart + 60 * hour + d ∧
        dayStart + 60 * hour < effectiveEnd c)
    ∧ (isSlotAvailable or hour d dayStart eid L = false →
        ∃ c ∈ L, eid ≠ some c.id ∧ c.extendedProps.or_suite = or ∧
          c.start < dayStart + 60 * hour ∧
          dayStart + 60 * hour < effectiveEnd c) := by
  constructor
  · simp only [isSlotAvailable]
    rw [isFreeAt_eq_false_iff]
    constructor
    · rintro ⟨c, hc, h1, h2, h3, h4⟩
      exact ⟨c, hc, h1, h2, by omega, h3⟩
    · rintro ⟨c, hc, h1, h2, h3, h4⟩
      exact ⟨c, hc, h1, h2, h4, by omega⟩
  · intro h
    obtain ⟨c, hc, h1, h2, h3, h4⟩ := (isFreeAt_eq_false_iff _ _ _ _ _).mp h
    exact ⟨c, hc, h1, h2, by omega, h3⟩

/-- C4 amended witness: the characterization at the 09:00 zero-duration
candidate against the 08:00–10:00 case, whose forward direction exhibits the
conflicting case. -/
theorem zero_duration_characterization_witness :
    isSlotAvailable "OR-1" 9 0 0 none [case0800x2] = false ↔
      ∃ c ∈ [case0800x2], none ≠ some c.id ∧
        c.extendedProps.or_suite = "OR-1" ∧
        c.start < 0 + 60 * 9 + 0 ∧ 0 + 60 * 9 < effectiveEnd c :=
  (zero_duration_characterization "OR-1" 9 0 0 none [case0800x2]
    (by decide)).1

/-- C5: with `excludeId = X.id` both checks ignore `X`'s own booking — adding
`X` to the case list changes neither the room check nor the surgeon busy
check, and against the list containing only `X` every candidate slot is
available, so `X`'s interval never conflicts with itself. -/
theorem self_exclusion (X : SurgeryCase) (L : List SurgeryCase) :
    (∀ (or : String) (hour d dayStart : Int),
      isSlotAvailable or hour d dayStart (some X.id) (X :: L) =
        isSlotAvailable or hour d dayStart (some X.id) L)
    ∧ (∀ (doc : String) (s e : Int),
        doctorBusy doc s e (some X.id) (X :: L) =
          doctorBusy doc s e (some X.id) L)
    ∧ (∀ (or : String) (hour d dayStart : Int),
        isSlotAvailable or hour d dayStart (some X.id) [X] = true) := by
  have hroom : ∀ (or : String) (s e : Int),
      roomConflict or s e (some X.id) X = false := by
    intro or s e
    simp [roomConflict]
  have hdoc : ∀ (doc : String) (s e : Int),
      doctorConflict doc s e (some X.id) X = false := by
    intro doc s e
    simp [doctorConflict]
  refine ⟨?_, ?_, ?_⟩
  · intro or hour d dayStart
    simp [isSlotAvailable, isFreeAt, List.any_cons, hroom]
  · intro doc s e
    simp [doctorBusy, List.any_cons, hdoc]
  · intro or hour d dayStart
    simp [isSlotAvailable, isFreeAt, List.any_cons, hroom]

/-- C6: the surgeon busy check applies the same half-open overlap rule as the
room check but filters on `doctor_name = some doc`; a case with no assigned
surgeon never conflicts for any surgeon, and the room is irrelevant — Dr. A
with a 10:00–11:00 case in OR-2 is busy for a 10:30–11:00 candidate (stated on
the interval-level `doctorBusy`) although OR-3 is free then, and for the
integer-hour slot (OR-3, 10:00, 30 min) the roster filter drops Dr. A. -/
theorem surgeon_check (doc : String) (s e : Int) (eid : Option Nat)
    (L : List SurgeryCase) :
    (doctorBusy doc s e eid L = true ↔
      ∃ c ∈ L, eid ≠ some c.id ∧ c.extendedProps.doctor_name = some doc ∧
        s < effectiveEnd c ∧ e > c.start)
    ∧ (∀ c : SurgeryCase, c.extendedProps.doctor_name = none →
        doctorConflict doc s e eid c = false)
    ∧ doctorBusy "Dr. A" 630 660 none [caseDrA] = true
    ∧ isFreeAt "OR-3" 630 660 none [caseDrA] = true
    ∧ getAvailableDoctors "Cardiology" [("Cardiology", ["Dr. A"])]
        (some ("OR-3", 10)) (some 30) 0 none [caseDrA] = [] := by
  refine ⟨doctorBusy_eq_true_iff doc s e eid L, ?_, by decide, by decide,
    by decide⟩
  intro c hc
  simp [doctorConflict, hc]

/-- C6 witness: the no-surgeon clause evaluated on the concrete unassigned
09:00–10:00 case — it never makes Dr. A busy. -/
theorem surgeon_check_witness :
    doctorConflict "Dr. A" 630 660 none case0900 = false :=
  (surgeon_check "Dr. A" 630 660 none [caseDrA]).2.1 case0900 rfl

/-- C7: while no slot is selected or no prediction is known, the consumer
returns the chosen specialty's full roster unfiltered (the overlap filter
only runs once both exist). -/
theorem full_roster_without_slot (service : String)
    (allDoctors : List (String × List String)) (ds : List String)
    (slot : Option (String × Int)) (pred : Option Int)
    (dayStart : Int) (eid : Option Nat) (L : List SurgeryCase)
    (hs : service ≠ "") (hlk : allDoctors.lookup service = some ds)
    (hnone : slot = none ∨ pred = none) :
    getAvailableDoctors service allDoctors slot pred dayStart eid L = ds := by
  unfold getAvailableDoctors
  rcases hnone with h | h <;> subst h
  · simp [hs, hlk]
  · cases slot <;> simp [hs, hlk]

/-- C7 witness: with a fetched roster for General and no selected slot, the
full roster comes back. -/
theorem full_roster_without_slot_witness :
    getAvailableDoctors "General" [("General", ["Dr. B", "Dr. C"])] none
      (some 60) 0 none [case0900] = ["Dr. B", "Dr. C"] :=
  full_roster_without_slot "General" [("General", ["Dr. B", "Dr. C"])]
    ["Dr. B", "Dr. C"] none (some 60) 0 none [case0900]
    (by decide) (by decide) (Or.inl rfl)

/-- C8: the rendered slot grid is exactly the Cartesian product of the four
OR suites with the eleven whole hours 8–18, in room-major then hour-ascending
order — 44 entries — and each entry's flag is `isSlotAvailable` at its (room,
hour); being a pure function of its arguments, identical inputs give the
identical sequence. -/
theorem slot_grid (d dayStart : Int) (eid : Option Nat)
    (L : List SurgeryCase) :
    ((enumerateSlots d dayStart eid L).map (fun x => (x.1, x.2.1)) =
      [("OR-1", 8), ("OR-1", 9), ("OR-1", 10), ("OR-1", 11), ("OR-1", 12),
       ("OR-1", 13), ("OR-1", 14), ("OR-1", 15), ("OR-1", 16), ("OR-1", 17),
       ("OR-1", 18),
       ("OR-2", 8), ("OR-2", 9), ("OR-2", 10), ("OR-2", 11), ("OR-2", 12),
       ("OR-2", 13), ("OR-2", 14), ("OR-2", 15), ("OR-2", 16), ("OR-2", 17),
       ("OR-2", 18),
       ("OR-3", 8), ("OR-3", 9), ("OR-3", 10), ("OR-3", 11), ("OR-3", 12),
       ("OR-3", 13), ("OR-3", 14), ("OR-3", 15), ("OR-3", 16), ("OR-3", 17),
       ("OR-3", 18),
       ("OR-4", 8), ("OR-4", 9), ("OR-4", 10), ("OR-4", 11), ("OR-4", 12),
       ("OR-4", 13), ("OR-4", 14), ("OR-4", 15), ("OR-4", 16), ("OR-4", 17),
       ("OR-4", 18)])
    ∧ (enumerateSlots d dayStart eid L).length = 4 * 11
    ∧ (∀ x ∈ enumerateSlots d dayStart eid L,
        x.2.2 = isSlotAvailable x.1 x.2.1 d dayStart eid L) := by
  refine ⟨rfl, rfl, ?_⟩
  intro x hx
  simp only [enumerateSlots, List.mem_flatten, List.mem_map] at hx
  obtain ⟨l, ⟨or, _, hl⟩, hxl⟩ := hx
  subst hl
  obtain ⟨h, _, hxh⟩ := List.mem_map.mp hxl
  subst hxh
  rfl

/-- C8 witness: the flag clause evaluated at the first grid entry over the
empty case list. -/
theorem slot_grid_witness :
    (("OR-1", (8 : Int), true) : String × Int × Bool).2.2 =
      isSlotAvailable "OR-1" 8 60 0 none [] :=
  (slot_grid 60 0 none []).2.2 ("OR-1", 8, true) (by decide)

/-- C9 counterexample: with a 09:00–10:00 case already in OR-1, the selected
slot (OR-1, 09:00) with a 60-minute prediction fails re-validation, yet
`onSubmit` still sends the payload to the API instead of rejecting locally. -/
theorem stale_selection_counterexample :
    isSlotAvailable "OR-1" 9 60 0 none [case0900] = false ∧
    onSubmit (some ("OR-1", 9)) (some 60) 0 "General" 60 "p9" "" none =
      SubmitAction.sent false
        ⟨"General", 60, "p9", "OR-1", 60, 540, 600, 60, ""⟩ := by decide

/-- C9 amended: `onSubmit` performs no re-validation against the case list
(the decision does not consult it at all) — submission is rejected locally
exactly when no slot is selected or the prediction is absent or zero, and in
every other case the payload built from the selected slot is sent. -/
theorem submit_validation (slot : Option (String × Int)) (pred : Option Int)
    (dayStart : Int) (service : String) (bt : Int) (pn dn : String)
    (eid : Option Nat) :
    onSubmit slot pred dayStart service bt pn dn eid =
        SubmitAction.rejectedLocally ↔
      slot = none ∨ pred = none ∨ pred = some 0 := by
  cases slot with
  | none => simp [onSubmit]
  | some sl =>
    cases pred with
    | none => simp [onSubmit]
    | some p =>
      by_cases hp : p = 0 <;> simp [onSubmit, hp]

/-- C10: with no specialty chosen (empty string) or a specialty absent from
the fetched roster map, the consumer returns the empty doctor list for every
slot, prediction and case list. -/
theorem empty_roster_without_specialty (service : String)
    (allDoctors : List (String × List String))
    (slot : Option (String × Int)) (pred : Option Int)
    (dayStart : Int) (eid : Option Nat) (L : List SurgeryCase)
    (h : service = "" ∨ allDoctors.lookup service = none) :
    getAvailableDoctors service allDoctors slot pred dayStart eid L = [] := by
  unfold getAvailableDoctors
  rcases h with h | h
  · simp [h]
  · by_cases hs : service = "" <;> simp [hs, h]

/-- C10 witness: a specialty missing from the roster map yields the empty
list. -/
theorem empty_roster_without_specialty_witness :
    getAvailableDoctors "Urology" [("General", ["Dr. B"])]
      (some ("OR-1", 9)) (some 60) 0 none [case0900] = [] :=
  empty_roster_without_specialty "Urology" [("General", ["Dr. B"])]
    (some ("OR-1", 9)) (some 60) 0 none [case0900] (Or.inr (by decide))

-- sanity checks of the embedding on the spec's scenarios
example :
    isSlotAvailable "OR-1" 8 60 0 none
      [⟨1, "c", 540, some 600, ⟨"OR-1", "General", 60, some 60, "p", false, none⟩⟩]
      = true := by decide
example :
    isSlotAvailable "OR-1" 9 30 0 none
      [⟨1, "c", 540, some 600, ⟨"OR-1", "General", 60, some 60, "p", false, none⟩⟩]
      = false := by decide
example :
    isSlotAvailable "OR-1" 10 60 0 none
      [⟨1, "c", 540, some 600, ⟨"OR-1", "General", 60, some 60, "p", false, none⟩⟩]
      = true := by decide
